import Mathlib

/-!
Shallow embedding of the worktimer flex-time accounting core (src/main.py).

Modelling conventions:
* A Python `datetime.time` value is embedded as the number of seconds since
  midnight (a `Nat`).  The operations of the program only ever build times at
  whole-second granularity (`replace(second=0, microsecond=0)` or direct
  `time` fields), so `int(timedelta.total_seconds())` is exact here.
* A Python `datetime.date` is embedded as its proleptic-Gregorian ordinal
  (`date.toordinal()`, a `Nat ≥ 1`); `date.isoweekday()` is then
  `(ordinal - 1) % 7 + 1` because ordinal 1 (0001-01-01) is a Monday.
* The journal operations `start`, `stop`, `switch`, `lunch` act on today's
  `Day` inside the timesheet.  Each Python command loads the timesheet from
  disk, possibly mutates the in-memory copy and either persists it with
  `save_timesheet`, returns early without saving, or raises `ValueError`.
  We model an operation as a function `... → Day → OpResult` where
  `OpResult.saved d` means the function ran to completion and persisted `d`,
  `OpResult.noSave msg` means it returned early (printing `msg` when it is
  `some`) leaving the persisted state untouched, and `OpResult.raised msg`
  means it raised `ValueError msg` (again leaving the persisted state
  untouched).  Console output on the successful path (estimated end time,
  flex report) is elided as pure presentation.
* Project selection: the operations are modelled for a repository with no
  projects configured (`load_projects()` empty), in which case every
  `prompt_for_project` site yields `None` in the source.
-/

namespace Worktimer

/-- `DEFAULT_WORK_HOURS` constant (main.py line 16). -/
def DEFAULT_WORK_HOURS : Nat := 8

/-- The configuration fields that the accounting core reads.  `Config.reload`
always sets `workhours_one_day = DEFAULT_WORK_HOURS` (main.py lines 29-43). -/
structure Config where
  workhours_one_day : Nat
deriving DecidableEq

/-- The configuration produced by `Config.reload` (dev mode changes only the
data-file location, never the daily quota). -/
def defaultConfig : Config := ⟨DEFAULT_WORK_HOURS⟩

/-- `time_diff` (main.py lines 53-59): 0 when either operand is `None`,
otherwise the signed difference in seconds floor-divided by 60 (Python's
`//` on ints is floor division; `int(total_seconds())` is exact at
whole-second granularity). -/
def time_diff (t1 t2 : Option Nat) : Int :=
  match t1, t2 with
  | some a, some b => Int.fdiv ((a : Int) - (b : Int)) 60
  | _, _ => 0

/-- `date.isoweekday()` for a date given by its proleptic-Gregorian ordinal:
1 = Monday, ..., 7 = Sunday. -/
def isoweekday (ordinal : Nat) : Nat :=
  (ordinal - 1) % 7 + 1

/-- `WorkBlock` (main.py lines 62-82). -/
structure WorkBlock where
  start : Option Nat := none
  stop : Option Nat := none
  comment : Option String := none
  project_id : Option Nat := none
  lunch : Int := 0
deriving DecidableEq

/-- `WorkBlock.started` (main.py lines 75-76). -/
def WorkBlock.started (wb : WorkBlock) : Bool :=
  wb.start.isSome

/-- `WorkBlock.stopped` (main.py lines 78-79). -/
def WorkBlock.stopped (wb : WorkBlock) : Bool :=
  wb.stop.isSome

/-- `WorkBlock.is_ongoing` (main.py lines 81-82). -/
def WorkBlock.is_ongoing (wb : WorkBlock) : Bool :=
  wb.started && !wb.stopped

/-- `WorkBlock.worked_time` (main.py lines 69-73). -/
def WorkBlock.worked_time (wb : WorkBlock) : Int :=
  if !wb.started || !wb.stopped then 0
  else time_diff wb.stop wb.start - wb.lunch

/-- `Day` (main.py lines 85-118).  `this_date` is the date's ordinal. -/
structure Day where
  this_date : Nat
  flex_minutes : Int := 0
  work_blocks : List WorkBlock := []
  time_off_minutes : Int := 0
deriving DecidableEq

/-- The mutating half of the `Day.last_work_block` property (main.py lines
91-95): accessing it first appends a fresh empty `WorkBlock` when the list is
empty. -/
def Day.ensure_last_block (d : Day) : Day :=
  if d.work_blocks.isEmpty then { d with work_blocks := [{}] } else d

/-- The value returned by the `Day.last_work_block` property (main.py lines
91-95): the last block of the (ensured non-empty) list. -/
def Day.last_work_block (d : Day) : WorkBlock :=
  d.ensure_last_block.work_blocks.getLastD {}

/-- `Day.worked_time` (main.py lines 97-99): sum of the blocks' worked
times (each block's `worked_time` is already net of its own lunch). -/
def Day.worked_time (d : Day) : Int :=
  (d.work_blocks.map WorkBlock.worked_time).sum

/-- `Day.lunch` (main.py lines 101-103): sum of the blocks' lunches. -/
def Day.lunch (d : Day) : Int :=
  (d.work_blocks.map WorkBlock.lunch).sum

/-- `Day.recalc_flex` (main.py lines 105-118), functionally: returns the day
with `flex_minutes` recomputed.  On weekends (isoweekday 6 or 7) both the
expected work time and the time-off are forced to 0; a day consisting of
exactly one not-yet-stopped block gets flex 0. -/
def Day.recalc_flex (cfg : Config) (d : Day) : Day :=
  let expected_worktime_in_mins : Int :=
    if isoweekday d.this_date = 6 ∨ isoweekday d.this_date = 7 then 0
    else (cfg.workhours_one_day : Int) * 60
  let time_off_minutes : Int :=
    if isoweekday d.this_date = 6 ∨ isoweekday d.this_date = 7 then 0
    else d.time_off_minutes
  if d.work_blocks.length == 1 && !d.last_work_block.stopped then
    { d with flex_minutes := 0 }
  else
    { d with flex_minutes := d.worked_time - expected_worktime_in_mins + time_off_minutes }

/-- The `Day` freshly created by `Timesheet.get_day` / `Timesheet.today` for a
date that is not yet in the timesheet (main.py lines 130-139): all fields at
their defaults. -/
def get_day_default (ordinal : Nat) : Day :=
  { this_date := ordinal }

/-- Replace the last element of a list (the effect of Python's
`work_blocks[-1].field = x` on a non-empty list). -/
def setLast {α : Type} (l : List α) (a : α) : List α :=
  l.dropLast ++ [a]

/-- Outcome of one journal command on today's `Day`:
`saved d` = ran to completion and persisted `d` via `save_timesheet`;
`noSave msg` = returned early without saving (printing `msg` when `some`);
`raised msg` = raised `ValueError msg` without saving. -/
inductive OpResult where
  | saved (d : Day)
  | noSave (msg : Option String)
  | raised (msg : String)
deriving DecidableEq

/-- The persisted day after a command, given that `d0` was on disk before it:
only a completed command overwrites the data file. -/
def OpResult.finalDay (d0 : Day) : OpResult → Day
  | .saved d => d
  | .noSave _ => d0
  | .raised _ => d0

/-- Two-digit zero-padded decimal, as in `strftime`. -/
def two_digit (n : Nat) : String :=
  if n < 10 then "0" ++ toString n else toString n

/-- `strftime('%H:%M')` of a time-of-day given in seconds. -/
def strftime_HM (secs : Nat) : String :=
  two_digit (secs / 3600) ++ ":" ++ two_digit (secs / 60 % 60)

/-- `start` (main.py lines 353-381) acting on today's `Day`; `t` is
`start_time.time()`.  With no projects configured `project_id` is `None`.
The estimated-end-time printout is elided. -/
def start (t : Nat) (d : Day) : OpResult :=
  let d1 := d.ensure_last_block
  let last_wb := d1.work_blocks.getLastD {}
  if last_wb.started && !last_wb.stopped then
    .noSave (some "Workblock already started, stop it before starting another one")
  else if last_wb.stopped then
    .saved { d1 with work_blocks := d1.work_blocks ++ [{ start := some t }] }
  else
    .saved { d1 with work_blocks := setLast d1.work_blocks { last_wb with start := some t, project_id := none } }

/-- `stop` (main.py lines 384-408) acting on today's `Day`; `t` is
`stop_time.time()`.  With no projects configured the re-prompted
`project_id` is `None`.  The flex printout is elided. -/
def stop (cfg : Config) (t : Nat) (comment : Option String) (d : Day) : OpResult :=
  let d1 := d.ensure_last_block
  let last_wb := d1.work_blocks.getLastD {}
  if !last_wb.started then
    .noSave (some "Could not stop workblock, is your last workblock started?")
  else if last_wb.stopped then
    .noSave none
  else
    let d2 :=
      { d1 with work_blocks :=
          setLast d1.work_blocks { last_wb with stop := some t, comment := comment, project_id := none } }
    .saved (Day.recalc_flex cfg d2)

/-- `switch` (main.py lines 411-458) acting on today's `Day`; `t` is
`switch_time.time()`.  With no projects configured the project prompts are
skipped and the new block gets `project_id = None`. -/
def switch (cfg : Config) (t : Nat) (d : Day) : OpResult :=
  let d1 := d.ensure_last_block
  let last_wb := d1.work_blocks.getLastD {}
  if !last_wb.started then
    .raised "No active work block to switch from"
  else if last_wb.stopped then
    .noSave none
  else
    match last_wb.start with
    | none => .raised "Current workblock has no start time"
    | some current_start =>
      if t < current_start then
        .raised ("Switch time " ++ strftime_HM t ++ " cannot be before workblock start time "
          ++ strftime_HM current_start)
      else
        let d2 :=
          { d1 with work_blocks :=
              setLast d1.work_blocks { last_wb with stop := some t } ++ [{ start := some t }] }
        .saved (Day.recalc_flex cfg d2)

/-- `lunch` (main.py lines 461-476) acting on today's `Day`.  The
estimated-end-time printout is elided. -/
def lunch (cfg : Config) (lunch_mins : Int) (d : Day) : OpResult :=
  if d.work_blocks.length == 0 || !d.last_work_block.started then
    .noSave (some "Could not find today in timesheet, did you start the day?")
  else if d.lunch != 0 then
    .noSave none
  else
    let last_wb := d.work_blocks.getLastD {}
    let d2 := { d with work_blocks := setLast d.work_blocks { last_wb with lunch := lunch_mins } }
    .saved (Day.recalc_flex cfg d2)

/-! Concrete sample days used to instantiate the theorems below.  Times in
seconds since midnight; ordinal 1 is a Monday, ordinal 6 a Saturday. -/

/-- A Monday with two stopped blocks (08:00-08:30 and 09:00-10:00). -/
def sampleTwoBlockDay : Day :=
  { this_date := 1,
    work_blocks := [{ start := some 28800, stop := some 30600 },
                    { start := some 32400, stop := some 36000 }] }

/-- A Saturday with time-off set and a single still-running block. -/
def sampleSingleOngoingDay : Day :=
  { this_date := 6, time_off_minutes := 300, work_blocks := [{ start := some 100 }] }

/-- A Monday whose single block started at 08:12 and is still running. -/
def sampleOngoingDay : Day :=
  { this_date := 1, work_blocks := [{ start := some 29520 }] }

/-- A Monday whose single block was auto-created but never started. -/
def sampleNotStartedDay : Day :=
  { this_date := 1, work_blocks := [{}] }

/-- A Monday whose single block ran 01:00-02:00 and is stopped. -/
def sampleStoppedDay : Day :=
  { this_date := 1, work_blocks := [{ start := some 3600, stop := some 7200 }] }

/-- A Tuesday with a stopped block carrying a 25-minute lunch. -/
def sampleStoppedLunchDay : Day :=
  { this_date := 2, work_blocks := [{ start := some 100, stop := some 200, lunch := 25 }] }

/-- A Monday whose single block started at 08:00 and is still running. -/
def sampleBlockAt8Day : Day :=
  { this_date := 1, work_blocks := [{ start := some 28800 }] }

/-! Helper lemmas shared by the claim theorems. -/

theorem last_work_block_of_empty (d : Day) (h : d.work_blocks = []) :
    d.last_work_block = {} := by
  simp [Day.last_work_block, Day.ensure_last_block, h]

theorem ensure_last_block_of_ne_nil (d : Day) (h : d.work_blocks ≠ []) :
    d.ensure_last_block = d := by
  simp [Day.ensure_last_block, List.isEmpty_iff, h]

theorem work_blocks_ne_nil_of_started (d : Day) (h : d.last_work_block.started = true) :
    d.work_blocks ≠ [] := by
  intro hemp
  rw [last_work_block_of_empty d hemp] at h
  simp [WorkBlock.started] at h

theorem recalc_flex_shape (cfg : Config) (d : Day) :
    Day.recalc_flex cfg d = { d with flex_minutes := (Day.recalc_flex cfg d).flex_minutes } := by
  cases hc : (d.work_blocks.length == 1 && !d.last_work_block.stopped) <;>
    simp [Day.recalc_flex, hc]

theorem last_work_block_congr (d e : Day) (h : d.work_blocks = e.work_blocks) :
    d.last_work_block = e.last_work_block := by
  simp only [Day.last_work_block, Day.ensure_last_block, apply_ite Day.work_blocks, h]

theorem recalc_flex_flex_irrel (cfg : Config) (d : Day) (x : Int) :
    (Day.recalc_flex cfg { d with flex_minutes := x }).flex_minutes =
      (Day.recalc_flex cfg d).flex_minutes := by
  have e2 : Day.last_work_block { d with flex_minutes := x } = d.last_work_block :=
    last_work_block_congr _ _ rfl
  cases hc : (d.work_blocks.length == 1 && !d.last_work_block.stopped) <;>
    simp [Day.recalc_flex, Day.worked_time, e2, hc]

/-! The claim theorems. -/

/-- Claim C1: for every `Day` that is not exactly one not-yet-stopped work
block, `recalc_flex` sets `flex_minutes` to `worked_time - expected + timeOff`,
where on Monday-Friday `expected` is the configured daily quota in minutes and
`timeOff` the day's `time_off_minutes`, and on Saturday/Sunday both are forced
to 0, so a weekend day's flex equals its worked time regardless of time-off. -/
theorem recalc_flex_formula (cfg : Config) (d : Day)
    (hguard : ¬ (d.work_blocks.length = 1 ∧ d.last_work_block.stopped = false)) :
    (Day.recalc_flex cfg d).flex_minutes =
      if isoweekday d.this_date = 6 ∨ isoweekday d.this_date = 7 then d.worked_time
      else d.worked_time - (cfg.workhours_one_day : Int) * 60 + d.time_off_minutes := by
  have hc : (d.work_blocks.length == 1 && !d.last_work_block.stopped) = false := by
    by_cases hl : d.work_blocks.length = 1
    · have hs : d.last_work_block.stopped = true := by
        cases hstop : d.last_work_block.stopped with
        | false => exact absurd ⟨hl, hstop⟩ hguard
        | true => rfl
      simp [hs]
    · simp [hl]
  by_cases hw : isoweekday d.this_date = 6 ∨ isoweekday d.this_date = 7 <;>
    simp [Day.recalc_flex, hc, hw]

/-- Instantiation of `recalc_flex_formula` on a two-block Monday. -/
theorem recalc_flex_formula_witness :
    (Day.recalc_flex defaultConfig sampleTwoBlockDay).flex_minutes =
      if isoweekday sampleTwoBlockDay.this_date = 6 ∨
          isoweekday sampleTwoBlockDay.this_date = 7 then
        sampleTwoBlockDay.worked_time
      else sampleTwoBlockDay.worked_time - (defaultConfig.workhours_one_day : Int) * 60 +
        sampleTwoBlockDay.time_off_minutes :=
  recalc_flex_formula defaultConfig sampleTwoBlockDay (by decide)

/-- Claim C2: for every `Day` with exactly one work block that has not been
stopped, `recalc_flex` sets `flex_minutes` to 0, regardless of the configured
quota, the day's time-off, and the weekday. -/
theorem recalc_flex_single_unstopped (cfg : Config) (d : Day)
    (h1 : d.work_blocks.length = 1) (h2 : d.last_work_block.stopped = false) :
    (Day.recalc_flex cfg d).flex_minutes = 0 := by
  simp [Day.recalc_flex, h1, h2]

/-- Instantiation of `recalc_flex_single_unstopped`: an arbitrary quota, a
Saturday with time-off, one running block. -/
theorem recalc_flex_single_unstopped_witness :
    (Day.recalc_flex ⟨123⟩ sampleSingleOngoingDay).flex_minutes = 0 :=
  recalc_flex_single_unstopped ⟨123⟩ sampleSingleOngoingDay rfl rfl

/-- Claim C3 counterexample: a block started at 09:00 and stopped at 08:00 has
`worked_time = -60`, so a negative duration is not defined as 0 and
`worked_time` can be negative. -/
theorem worked_time_negative_cex :
    WorkBlock.worked_time { start := some 32400, stop := some 28800 } = -60 ∧
    WorkBlock.worked_time { start := some 32400, stop := some 28800 } < 0 := by
  decide

/-- Claim C3 (amended): `worked_time` is 0 when `start` or `stop` is absent and
otherwise equals `time_diff stop start` minus the block's own lunch, with no
clamping, so an inverted interval yields a negative value. -/
theorem worked_time_eq (wb : WorkBlock) :
    wb.worked_time =
      if wb.start = none ∨ wb.stop = none then 0
      else time_diff wb.stop wb.start - wb.lunch := by
  obtain ⟨s, p, c, pid, l⟩ := wb
  cases s <;> cases p <;>
    simp [WorkBlock.worked_time, WorkBlock.started, WorkBlock.stopped]

/-- Claim C4: with an active (started, unstopped) current block, `switch` at a
time strictly before that block's start raises an error naming both times, and
the persisted day is unchanged. -/
theorem switch_before_start_raises (cfg : Config) (t s : Nat) (d : Day)
    (hstart : (d.work_blocks.getLastD {}).start = some s)
    (hstop : (d.work_blocks.getLastD {}).stop = none)
    (hlt : t < s) :
    switch cfg t d = OpResult.raised ("Switch time " ++ strftime_HM t ++
      " cannot be before workblock start time " ++ strftime_HM s) ∧
    (switch cfg t d).finalDay d = d := by
  have hne : d.work_blocks ≠ [] := by
    intro hemp
    rw [hemp] at hstart
    simp [List.getLastD] at hstart
  have hens : d.ensure_last_block = d := ensure_last_block_of_ne_nil d hne
  have hst : (d.work_blocks.getLast?.getD ({} : WorkBlock)).start = some s := by
    simpa only [List.getLastD_eq_getLast?] using hstart
  have hsp : (d.work_blocks.getLast?.getD ({} : WorkBlock)).stop = none := by
    simpa only [List.getLastD_eq_getLast?] using hstop
  have hstarted : (d.work_blocks.getLast?.getD ({} : WorkBlock)).started = true := by
    simp [WorkBlock.started, hst]
  have hstopped : (d.work_blocks.getLast?.getD ({} : WorkBlock)).stopped = false := by
    simp [WorkBlock.stopped, hsp]
  have h1 : switch cfg t d = OpResult.raised ("Switch time " ++ strftime_HM t ++
      " cannot be before workblock start time " ++ strftime_HM s) := by
    simp [switch, hens, hstarted, hstopped, hst, hlt]
  exact ⟨h1, by rw [h1]; rfl⟩

/-- Instantiation of `switch_before_start_raises`: block started 08:00, switch
requested at 07:00. -/
theorem switch_before_start_raises_witness :
    switch defaultConfig 25200 sampleBlockAt8Day =
      OpResult.raised ("Switch time " ++ strftime_HM 25200 ++
        " cannot be before workblock start time " ++ strftime_HM 28800) ∧
    (switch defaultConfig 25200 sampleBlockAt8Day).finalDay sampleBlockAt8Day =
      sampleBlockAt8Day :=
  switch_before_start_raises defaultConfig 25200 28800 sampleBlockAt8Day rfl rfl (by decide)

/-- Claim C5 counterexample: with a current block that is started and already
stopped, `switch` does not fail with an error — it silently returns without
saving (constructor `noSave none`, not `raised`). -/
theorem switch_stopped_silent_cex :
    switch defaultConfig 600
      { this_date := 1, work_blocks := [{ start := some 100, stop := some 200 }] } =
      OpResult.noSave none := by
  decide

/-- Claim C5 (amended): when the current block is not started, `switch` raises
an explicit error and the persisted day is unchanged; when the current block is
started but already stopped, `switch` is a silent no-op (like `stop`) and the
persisted day is unchanged. -/
theorem switch_inactive_block (cfg : Config) (t : Nat) (d : Day) :
    (d.last_work_block.started = false →
      switch cfg t d = OpResult.raised "No active work block to switch from" ∧
      (switch cfg t d).finalDay d = d) ∧
    (d.last_work_block.started = true → d.last_work_block.stopped = true →
      switch cfg t d = OpResult.noSave none ∧
      (switch cfg t d).finalDay d = d) := by
  constructor
  · intro h
    have h' : (d.ensure_last_block.work_blocks.getLast?.getD ({} : WorkBlock)).started = false := by
      simpa only [Day.last_work_block, List.getLastD_eq_getLast?] using h
    have h1 : switch cfg t d = OpResult.raised "No active work block to switch from" := by
      simp [switch, h']
    exact ⟨h1, by rw [h1]; rfl⟩
  · intro h1 h2
    have h1' : (d.ensure_last_block.work_blocks.getLast?.getD ({} : WorkBlock)).started = true := by
      simpa only [Day.last_work_block, List.getLastD_eq_getLast?] using h1
    have h2' : (d.ensure_last_block.work_blocks.getLast?.getD ({} : WorkBlock)).stopped = true := by
      simpa only [Day.last_work_block, List.getLastD_eq_getLast?] using h2
    have he : switch cfg t d = OpResult.noSave none := by
      simp [switch, h1', h2']
    exact ⟨he, by rw [he]; rfl⟩

/-- Instantiation of `switch_inactive_block` on a never-started day and on a
stopped 01:00-02:00 day. -/
theorem switch_inactive_block_witness :
    switch defaultConfig 600 sampleNotStartedDay =
      OpResult.raised "No active work block to switch from" ∧
    switch defaultConfig 7300 sampleStoppedDay = OpResult.noSave none :=
  ⟨((switch_inactive_block defaultConfig 600 sampleNotStartedDay).1 rfl).1,
   ((switch_inactive_block defaultConfig 7300 sampleStoppedDay).2 rfl rfl).1⟩

/-- Claim C6: when the current block is started and not stopped, `start` is
rejected with a user-facing message and nothing is persisted: the saved day is
the original one, blocks and all. -/
theorem start_rejected_when_ongoing (t : Nat) (d : Day)
    (h1 : d.last_work_block.started = true) (h2 : d.last_work_block.stopped = false) :
    start t d =
      OpResult.noSave (some "Workblock already started, stop it before starting another one") ∧
    (start t d).finalDay d = d := by
  have h1' : (d.ensure_last_block.work_blocks.getLast?.getD ({} : WorkBlock)).started = true := by
    simpa only [Day.last_work_block, List.getLastD_eq_getLast?] using h1
  have h2' : (d.ensure_last_block.work_blocks.getLast?.getD ({} : WorkBlock)).stopped = false := by
    simpa only [Day.last_work_block, List.getLastD_eq_getLast?] using h2
  have he : start t d =
      OpResult.noSave (some "Workblock already started, stop it before starting another one") := by
    simp [start, h1', h2']
  exact ⟨he, by rw [he]; rfl⟩

/-- Instantiation of `start_rejected_when_ongoing`: second `start` on a day
whose block started at 08:12 and is still running. -/
theorem start_rejected_when_ongoing_witness :
    start 28800 sampleOngoingDay =
      OpResult.noSave (some "Workblock already started, stop it before starting another one") ∧
    (start 28800 sampleOngoingDay).finalDay sampleOngoingDay = sampleOngoingDay :=
  start_rejected_when_ongoing 28800 sampleOngoingDay rfl rfl

/-- Claim C7: repeated writes are no-ops — when the current block is already
stopped, a further `stop` leaves the persisted day unchanged (silently so when
the block was started), and when the day-level lunch is already positive, a
further `lunch` leaves the persisted day unchanged (silently so when the last
block is started). -/
theorem stop_lunch_repeat_noop (cfg : Config) (t : Nat) (c : Option String) (m : Int)
    (d : Day) :
    (d.last_work_block.stopped = true →
      (stop cfg t c d).finalDay d = d ∧
      (d.last_work_block.started = true → stop cfg t c d = OpResult.noSave none)) ∧
    (0 < d.lunch →
      (lunch cfg m d).finalDay d = d ∧
      (d.last_work_block.started = true → lunch cfg m d = OpResult.noSave none)) := by
  constructor
  · intro h2
    have h2' : (d.ensure_last_block.work_blocks.getLast?.getD ({} : WorkBlock)).stopped = true := by
      simpa only [Day.last_work_block, List.getLastD_eq_getLast?] using h2
    constructor
    · cases h1 : (d.ensure_last_block.work_blocks.getLast?.getD ({} : WorkBlock)).started with
      | false => simp [stop, h1, OpResult.finalDay]
      | true => simp [stop, h1, h2', OpResult.finalDay]
    · intro h1
      have h1' : (d.ensure_last_block.work_blocks.getLast?.getD ({} : WorkBlock)).started = true := by
        simpa only [Day.last_work_block, List.getLastD_eq_getLast?] using h1
      simp [stop, h1', h2']
  · intro hl
    have hne0 : d.lunch ≠ 0 := by omega
    constructor
    · cases c1 : (d.work_blocks.length == 0) with
      | true => simp [lunch, c1, OpResult.finalDay]
      | false =>
        cases c2 : d.last_work_block.started with
        | false => simp [lunch, c1, c2, OpResult.finalDay]
        | true => simp [lunch, c1, c2, hne0, OpResult.finalDay]
    · intro h1
      have hne : d.work_blocks ≠ [] := work_blocks_ne_nil_of_started d h1
      have hlen : (d.work_blocks.length == 0) = false := by
        simp [List.length_eq_zero, hne]
      simp [lunch, hlen, h1, hne0]

/-- Instantiation of `stop_lunch_repeat_noop` on a day with a stopped block
carrying a 25-minute lunch. -/
theorem stop_lunch_repeat_noop_witness :
    (stop defaultConfig 300 none sampleStoppedLunchDay).finalDay sampleStoppedLunchDay =
      sampleStoppedLunchDay ∧
    stop defaultConfig 300 none sampleStoppedLunchDay = OpResult.noSave none ∧
    (lunch defaultConfig 30 sampleStoppedLunchDay).finalDay sampleStoppedLunchDay =
      sampleStoppedLunchDay ∧
    lunch defaultConfig 30 sampleStoppedLunchDay = OpResult.noSave none := by
  have h := stop_lunch_repeat_noop defaultConfig 300 none 30 sampleStoppedLunchDay
  exact ⟨(h.1 rfl).1, (h.1 rfl).2 rfl, (h.2 (by decide)).1, (h.2 (by decide)).2 rfl⟩

/-- Claim C8: `recalc_flex` is idempotent on `flex_minutes` — it recomputes the
value from `work_blocks`, lunch and `time_off_minutes` and never reads the
stale `flex_minutes`. -/
theorem recalc_flex_idempotent (cfg : Config) (d : Day) :
    (Day.recalc_flex cfg (Day.recalc_flex cfg d)).flex_minutes =
      (Day.recalc_flex cfg d).flex_minutes := by
  conv_lhs => rw [recalc_flex_shape cfg d]
  exact recalc_flex_flex_irrel cfg d _

/-- Claim C9 counterexample: `time_diff` floor-divides, it does not truncate —
for `a` 30 seconds before `b` the truncated quotient of the signed second
difference by 60 is 0 but `time_diff` returns -1. -/
theorem time_diff_trunc_cex :
    time_diff (some 0) (some 30) = -1 ∧
    Int.tdiv ((0 : Int) - 30) 60 = 0 := by
  decide

/-- Claim C9 (amended): for present operands `time_diff a b` is the floor of
the signed second difference divided by 60 (Python `//` floors rather than
truncates), and it returns 0 whenever either operand is absent. -/
theorem time_diff_floor (a b : Nat) :
    time_diff (some a) (some b) * 60 ≤ (a : Int) - b ∧
    (a : Int) - b < time_diff (some a) (some b) * 60 + 60 ∧
    time_diff none (some b) = 0 ∧ time_diff (some a) none = 0 ∧
    time_diff none none = 0 := by
  have h : time_diff (some a) (some b) = ((a : Int) - b) / 60 := by
    show Int.fdiv _ _ = _
    rw [Int.fdiv_eq_ediv _ (by norm_num)]
  refine ⟨?_, ?_, rfl, rfl, rfl⟩ <;> rw [h] <;> omega

/-- Claim C10: on a weekday `Day` with no work blocks, `recalc_flex` sets
`flex_minutes` to `time_off_minutes - quota` (not 0): the one-unstopped-block
guard does not cover the zero-block case, so auto-vivified empty days pick up
a full negative quota once a bulk recalculation runs. -/
theorem recalc_flex_empty_weekday (cfg : Config) (d : Day)
    (hempty : d.work_blocks = []) (hwk : isoweekday d.this_date ≤ 5) :
    (Day.recalc_flex cfg d).flex_minutes =
      d.time_off_minutes - (cfg.workhours_one_day : Int) * 60 := by
  have h6 : ¬ (isoweekday d.this_date = 6 ∨ isoweekday d.this_date = 7) := by omega
  simp [Day.recalc_flex, hempty, h6, Day.worked_time]
  omega

/-- Instantiation of `recalc_flex_empty_weekday`: the default day auto-created
by `Timesheet.get_day` for a Monday gets flex -480 under the default config. -/
theorem recalc_flex_empty_weekday_witness :
    (Day.recalc_flex defaultConfig (get_day_default 1)).flex_minutes =
      (get_day_default 1).time_off_minutes - (defaultConfig.workhours_one_day : Int) * 60 ∧
    (Day.recalc_flex defaultConfig (get_day_default 1)).flex_minutes = -480 := by
  refine ⟨recalc_flex_empty_weekday defaultConfig (get_day_default 1) rfl (by decide), ?_⟩
  decide

end Worktimer
